import Mathlib

/-
Verification of the play-by-play normalization pipeline
(src/utility/pbp_handler.py) against its natural-language specification.

The pipeline operates on a pandas DataFrame whose rows are scorekeeper
events.  We embed a row as a structure holding exactly the columns the
verified passes read or write; pandas NaN cells are `Option.none`, clock
strings are lists of characters, and the two-team inverter dictionary is a
function argument.  Each pass becomes a pure function on lists of rows.
-/

set_option maxHeartbeats 1000000

/-- One row of the play-by-play table.  Column names follow the provider
schema used throughout pbp_handler.py; fields whose cell can be NaN/null in
pandas are `Option`s.  Metadata pass-through columns (city, nickname,
abbreviation, names of players 2/3, WCTIMESTRING, score columns) are not
read by any verified pass and are omitted. -/
structure Row where
  EVENTNUM : Int := 0
  EVENTMSGTYPE : Nat := 0
  EVENTMSGACTIONTYPE : Nat := 0
  PERIOD : Nat := 1
  PCTIMESTRING : List Char := []
  HOMEDESCRIPTION : String := ""
  NEUTRALDESCRIPTION : String := ""
  VISITORDESCRIPTION : String := ""
  ACTION_DETAILS : String := ""
  PERSON1TYPE : Int := 0
  PLAYER1_ID : Int := 0
  PLAYER1_NAME : Option String := none
  PLAYER1_TEAM_ID : Option Int := none
  PERSON2TYPE : Int := 0
  PLAYER2_ID : Int := 0
  PLAYER2_TEAM_ID : Option Int := none
  PLAYER3_ID : Int := 0
  REMAINING_TIME : Int := 0
  CLOCK_ON : Bool := true
  POSS : Option Int := none
deriving DecidableEq

/-- Pandas float comparison `a == b` on two possibly-NaN cells: NaN compares
unequal to everything, including another NaN. -/
def float_eq (a b : Option Int) : Bool :=
  match a, b with
  | some x, some y => x == y
  | _, _ => false

/-- Pandas `a != b` on possibly-NaN cells: NaN is `!=` everything. -/
def pandas_ne (a b : Option Int) : Bool :=
  match a, b with
  | some x, some y => x != y
  | _, _ => true

/- ------------------------------------------------------------------
Clock-string helpers, pbp_handler.py lines 20-45.  Python strings are
embedded as `List Char`; `str`/`int`/`split`/`zfill` are modelled below
with their documented semantics (`int` fails on a non-digit string, so the
parser returns an `Option`). -/

/-- Decimal digit character (Python `str` on one digit). -/
def digit_char (n : Nat) : Char :=
  match n with
  | 0 => '0' | 1 => '1' | 2 => '2' | 3 => '3' | 4 => '4'
  | 5 => '5' | 6 => '6' | 7 => '7' | 8 => '8' | 9 => '9'
  | _ => '*'

/-- Numeric value of a digit character. -/
def char_val (c : Char) : Nat := c.toNat - 48

/-- True on '0'..'9'. -/
def is_digit (c : Char) : Bool := 48 ≤ c.toNat && c.toNat ≤ 57

/-- Python `str` on a non-negative integer: decimal digits, no sign, no
leading zeros (except "0" itself). -/
def nat_repr (n : Nat) : List Char :=
  if _h : n < 10 then [digit_char n]
  else nat_repr (n / 10) ++ [digit_char (n % 10)]
termination_by n
decreasing_by exact Nat.div_lt_self (by omega) (by omega)

/-- Python `int` on a string: the decimal value when every character is a
digit and the string is non-empty, failure otherwise. -/
def parse_nat (cs : List Char) : Option Nat :=
  match cs with
  | [] => none
  | c :: rest =>
    if (c :: rest).all is_digit then
      some ((c :: rest).foldl (fun acc c => acc * 10 + char_val c) 0)
    else none

/-- Python `str.zfill(2)`: left-pad with '0' to length two. -/
def zfill2 (cs : List Char) : List Char :=
  List.replicate (2 - cs.length) '0' ++ cs

/-- Prepend a character onto the first piece of a split result. -/
def cons_head (c : Char) : List (List Char) → List (List Char)
  | p :: ps => (c :: p) :: ps
  | [] => [[c]]

/-- Python `str.split(":")`. -/
def split_colon : List Char → List (List Char)
  | [] => [[]]
  | c :: rest =>
    if c = ':' then [] :: split_colon rest
    else cons_head c (split_colon rest)

/-- timestring_to_seconds, pbp_handler.py lines 20-31: split the MM:SS
string on ":" and return minutes*60 + seconds.  Python raises (IndexError /
ValueError) when the string has no colon or a non-numeric part; those
failures are `none`. -/
def timestring_to_seconds (cs : List Char) : Option Nat :=
  match split_colon cs with
  | a :: b :: _ =>
    match parse_nat a, parse_nat b with
    | some m, some s => some (m * 60 + s)
    | _, _ => none
  | _ => none

/-- seconds_to_timestring, pbp_handler.py lines 34-45:
`str(sec // 60) + ":" + str(sec % 60).zfill(2)`. -/
def seconds_to_timestring (sec_int : Nat) : List Char :=
  nat_repr (sec_int / 60) ++ ':' :: zfill2 (nat_repr (sec_int % 60))

/- Helper lemmas for the round-trip proof. -/

theorem digit_char_is_digit {n : Nat} (h : n < 10) : is_digit (digit_char n) = true := by
  interval_cases n <;> decide

theorem char_val_digit_char {n : Nat} (h : n < 10) : char_val (digit_char n) = n := by
  interval_cases n <;> decide

theorem digit_char_ne_colon {n : Nat} (h : n < 10) : digit_char n ≠ ':' := by
  interval_cases n <;> decide

theorem nat_repr_all_digits (n : Nat) : (nat_repr n).all is_digit = true := by
  induction n using Nat.strong_induction_on with
  | _ n ih =>
    rw [nat_repr]
    split
    · next h => simp [digit_char_is_digit h]
    · next h =>
      have h1 : (nat_repr (n / 10)).all is_digit = true :=
        ih (n / 10) (Nat.div_lt_self (by omega) (by omega))
      have h2 : [digit_char (n % 10)].all is_digit = true := by
        simp [digit_char_is_digit (Nat.mod_lt n (by omega))]
      rw [List.all_append, h1, h2]
      rfl

theorem nat_repr_ne_nil (n : Nat) : nat_repr n ≠ [] := by
  rw [nat_repr]
  split
  · simp
  · simp

theorem colon_not_mem_nat_repr (n : Nat) : ':' ∉ nat_repr n := by
  intro hmem
  have hall := nat_repr_all_digits n
  rw [List.all_eq_true] at hall
  have := hall ':' hmem
  simp [is_digit] at this

theorem nat_repr_foldl (n : Nat) :
    ∀ acc : Nat, (nat_repr n).foldl (fun acc c => acc * 10 + char_val c) acc
      = acc * 10 ^ (nat_repr n).length + n := by
  induction n using Nat.strong_induction_on with
  | _ n ih =>
    intro acc
    rw [nat_repr]
    split
    · next h =>
      simp [List.foldl, char_val_digit_char h]
    · next h =>
      rw [List.foldl_append, List.length_append]
      rw [ih (n / 10) (Nat.div_lt_self (by omega) (by omega)) acc]
      simp only [List.foldl, List.length_cons, List.length_nil]
      rw [char_val_digit_char (Nat.mod_lt n (by omega))]
      rw [pow_add, pow_one]
      have hdm : n / 10 * 10 + n % 10 = n := Nat.div_add_mod' n 10
      calc (acc * 10 ^ (nat_repr (n / 10)).length + n / 10) * 10 + n % 10
          = acc * (10 ^ (nat_repr (n / 10)).length * 10) + (n / 10 * 10 + n % 10) := by ring
        _ = acc * (10 ^ (nat_repr (n / 10)).length * 10) + n := by rw [hdm]

theorem parse_nat_nat_repr (n : Nat) : parse_nat (nat_repr n) = some n := by
  have hne := nat_repr_ne_nil n
  have hall := nat_repr_all_digits n
  have hfold := nat_repr_foldl n 0
  simp only [Nat.zero_mul, Nat.zero_add] at hfold
  cases hcs : nat_repr n with
  | nil => exact absurd hcs hne
  | cons c rest =>
    rw [hcs] at hall hfold
    show (if (c :: rest).all is_digit then
            some ((c :: rest).foldl (fun acc c => acc * 10 + char_val c) 0)
          else none) = some n
    rw [if_pos hall, hfold]

theorem parse_nat_cons_zero (cs : List Char) (hne : cs ≠ [])
    (h : cs.all is_digit = true) : parse_nat ('0' :: cs) = parse_nat cs := by
  cases cs with
  | nil => exact absurd rfl hne
  | cons c cs' =>
    have hall : (('0' :: c :: cs').all is_digit) = true := by
      rw [List.all_cons, h]
      decide
    show (if ('0' :: c :: cs').all is_digit then
            some (('0' :: c :: cs').foldl (fun acc c => acc * 10 + char_val c) 0)
          else none) = parse_nat (c :: cs')
    rw [if_pos hall]
    show _ = (if (c :: cs').all is_digit then
                some ((c :: cs').foldl (fun acc c => acc * 10 + char_val c) 0)
              else none)
    rw [if_pos h]
    simp [List.foldl, char_val]

theorem split_colon_no_colon {cs : List Char} (h : ':' ∉ cs) :
    split_colon cs = [cs] := by
  induction cs with
  | nil => rfl
  | cons c rest ih =>
    have hc : c ≠ ':' := fun hc => h (hc ▸ List.mem_cons_self c rest)
    have hrest : ':' ∉ rest := fun hm => h (List.mem_cons_of_mem c hm)
    show (if c = ':' then [] :: split_colon rest else cons_head c (split_colon rest)) = _
    rw [if_neg hc, ih hrest]
    rfl

theorem split_colon_append {a : List Char} (b : List Char) (h : ':' ∉ a) :
    split_colon (a ++ ':' :: b) = a :: split_colon b := by
  induction a with
  | nil => simp [split_colon]
  | cons c rest ih =>
    have hc : c ≠ ':' := fun hc => h (hc ▸ List.mem_cons_self c rest)
    have hrest : ':' ∉ rest := fun hm => h (List.mem_cons_of_mem c hm)
    show (if c = ':' then [] :: split_colon (rest ++ ':' :: b)
          else cons_head c (split_colon (rest ++ ':' :: b))) = _
    rw [if_neg hc, ih hrest]
    rfl

/-- C10.  For every non-negative integer s, converting s to a clock string
and parsing it back is the identity:
timestring_to_seconds (seconds_to_timestring s) = s.  This is the
algebraic relation that keeps the rewritten PCTIMESTRING and
REMAINING_TIME fields mutually consistent after putback retiming. -/
theorem parse_nat_zfill2_nat_repr (n : Nat) :
    parse_nat (zfill2 (nat_repr n)) = some n := by
  unfold zfill2
  rcases Nat.lt_or_ge (nat_repr n).length 2 with hlen | hlen
  · have hne := nat_repr_ne_nil n
    have hlen1 : (nat_repr n).length = 1 := by
      have : (nat_repr n).length ≠ 0 := by simpa [List.length_eq_zero] using hne
      omega
    rw [hlen1]
    show parse_nat ('0' :: nat_repr n) = some n
    rw [parse_nat_cons_zero (nat_repr n) hne (nat_repr_all_digits n)]
    exact parse_nat_nat_repr n
  · have h0 : 2 - (nat_repr n).length = 0 := by omega
    rw [h0]
    show parse_nat (nat_repr n) = some n
    exact parse_nat_nat_repr n

/-- C10.  For every non-negative integer s, converting s to a clock string
and parsing it back is the identity:
timestring_to_seconds (seconds_to_timestring s) = s.  This is the
algebraic relation that keeps the rewritten PCTIMESTRING and
REMAINING_TIME fields mutually consistent after putback retiming. -/
theorem C10_theorem (s : Nat) :
    timestring_to_seconds (seconds_to_timestring s) = some s := by
  have hm := colon_not_mem_nat_repr (s / 60)
  have hz : ':' ∉ zfill2 (nat_repr (s % 60)) := by
    intro hmem
    unfold zfill2 at hmem
    rw [List.mem_append] at hmem
    cases hmem with
    | inl h => exact absurd (List.eq_of_mem_replicate h) (by decide)
    | inr h => exact colon_not_mem_nat_repr (s % 60) h
  have hsplit : split_colon (seconds_to_timestring s)
      = [nat_repr (s / 60), zfill2 (nat_repr (s % 60))] := by
    unfold seconds_to_timestring
    rw [split_colon_append _ hm, split_colon_no_colon hz]
  unfold timestring_to_seconds
  rw [hsplit]
  show (match parse_nat (nat_repr (s / 60)), parse_nat (zfill2 (nat_repr (s % 60))) with
        | some m, some s => some (m * 60 + s)
        | _, _ => none) = some s
  rw [parse_nat_nat_repr (s / 60), parse_nat_zfill2_nat_repr (s % 60)]
  show some (s / 60 * 60 + s % 60) = some s
  have : s / 60 * 60 + s % 60 = s := by omega
  rw [this]

/- ------------------------------------------------------------------
Shot-clock estimation, pbp_handler.py lines 302-439 (C1). -/

/-- estimate_actual_time_remaining, pbp_handler.py lines 302-341, at the
default delays used by estimate_shotclock (inbound_delay = 2,
keeper_delay = 2, tip_adjustment = 3). -/
def estimate_actual_time_remaining (row : Row) : Int :=
  if row.EVENTMSGTYPE == 12 && !(row.PERIOD == 2 || row.PERIOD == 3 || row.PERIOD == 4) then
    row.REMAINING_TIME - 3
  else if row.EVENTMSGTYPE == 10 && row.PCTIMESTRING == "12:00".toList && row.PERIOD == 1 then
    row.REMAINING_TIME - 3
  else if row.EVENTMSGTYPE == 10 && row.PCTIMESTRING == "5:00".toList && decide (row.PERIOD > 4) then
    row.REMAINING_TIME - 3
  else if !row.CLOCK_ON then
    row.REMAINING_TIME
  else if row.EVENTMSGTYPE == 20 then
    row.REMAINING_TIME - 2
  else
    row.REMAINING_TIME + 2

/-- get_shotclock_value, pbp_handler.py lines 344-373: per-row shot-clock
reset rules (offensive rebound → 14 unless a block is pending, common-foul
floor of 14, flagrant-class foul → 24, otherwise keep the decremented
value). -/
def get_shotclock_value (row : Row) (unadjusted_shotclock : Int) (blocked : Bool) : Int :=
  if row.EVENTMSGTYPE == 4
      && (row.ACTION_DETAILS == "OFFENSIVE" || row.ACTION_DETAILS == "OFFENSIVE-TEAM")
      && !blocked then
    14
  else if row.EVENTMSGTYPE == 6 && [1, 2, 6, 28].contains row.EVENTMSGACTIONTYPE
      && decide (unadjusted_shotclock < 14) then
    14
  else if row.EVENTMSGTYPE == 6 && [14, 9, 15, 8].contains row.EVENTMSGACTIONTYPE then
    24
  else
    unadjusted_shotclock

/-- Loop body of estimate_shotclock, pbp_handler.py lines 413-437, for the
rows after the first: carries the previous shot-clock value, the previous
actual remaining time and the block flag.  A missed shot with a non-zero
PLAYER3_ID raises the flag before the row is valued; any rebound row clears
it after the row is valued. -/
def estimate_shotclock_aux (prev_sc prev_time : Int) (block_flag : Bool) :
    List Row → List Int
  | [] => []
  | row :: rest =>
    let bf1 := if row.EVENTMSGTYPE == 2 && row.PLAYER3_ID != 0 then true else block_flag
    let curr_time := estimate_actual_time_remaining row
    let elapsed_time := max (prev_time - curr_time) 0
    let unadjusted_sc := prev_sc - elapsed_time
    let adjusted_sc := get_shotclock_value row unadjusted_sc bf1
    let bf2 := if row.EVENTMSGTYPE == 4 then false else bf1
    adjusted_sc :: estimate_shotclock_aux adjusted_sc curr_time bf2 rest

/-- estimate_shotclock, pbp_handler.py lines 377-439: the possession's
first row is pinned to 24 (and still updates the block flag); every later
row is valued by the loop body above. -/
def estimate_shotclock : List Row → List Int
  | [] => []
  | row :: rest =>
    let bf1 := if row.EVENTMSGTYPE == 2 && row.PLAYER3_ID != 0 then true else false
    let bf2 := if row.EVENTMSGTYPE == 4 then false else bf1
    24 :: estimate_shotclock_aux 24 (estimate_actual_time_remaining row) bf2 rest

/-- A dead-ball possession opener followed by a missed shot recorded 38
seconds later: nothing in estimate_shotclock clamps the decrement at 0. -/
def c1_row0 : Row :=
  { EVENTMSGTYPE := 12, PERIOD := 2, REMAINING_TIME := 700, CLOCK_ON := false }

/-- Missed field goal 38 estimated seconds into the possession. -/
def c1_row1 : Row :=
  { EVENTMSGTYPE := 2, PERIOD := 2, REMAINING_TIME := 660, CLOCK_ON := true }

/-- C1, counterexample.  The claim asserts every SHOTCLOCK value lies in
[0, 24]; on the two-row possession below the second value is -14, because
estimate_shotclock subtracts the elapsed time with no lower clamp.  (The
recorded clock moves 40 s while the estimated actual remaining time moves
38 s; 24 - 38 = -14 and a missed shot resets nothing.) -/
theorem C1_counterexample :
    ¬ (∀ sc ∈ estimate_shotclock [c1_row0, c1_row1], 0 ≤ sc ∧ sc ≤ 24) := by
  intro h
  have := h (-14) (by decide)
  omega

theorem get_shotclock_value_le (row : Row) (u : Int) (b : Bool) (hu : u ≤ 24) :
    get_shotclock_value row u b ≤ 24 := by
  unfold get_shotclock_value
  split
  · omega
  · split
    · omega
    · split
      · omega
      · exact hu

theorem estimate_shotclock_aux_le (rows : List Row) :
    ∀ (psc pt : Int) (bf : Bool), psc ≤ 24 →
      ∀ sc ∈ estimate_shotclock_aux psc pt bf rows, sc ≤ 24 := by
  induction rows with
  | nil => intro psc pt bf _ sc hsc; simp [estimate_shotclock_aux] at hsc
  | cons row rest ih =>
    intro psc pt bf hpsc sc hsc
    rw [estimate_shotclock_aux] at hsc
    simp only [List.mem_cons] at hsc
    have hun : psc - max (pt - estimate_actual_time_remaining row) 0 ≤ 24 := by
      have := le_max_right (pt - estimate_actual_time_remaining row) (0 : Int)
      omega
    have hadj := get_shotclock_value_le row
      (psc - max (pt - estimate_actual_time_remaining row) 0)
      (if row.EVENTMSGTYPE == 2 && row.PLAYER3_ID != 0 then true else bf) hun
    cases hsc with
    | inl h => rw [h]; exact hadj
    | inr h => exact ih _ _ _ hadj sc h

/-- C1, amended.  Shot-clock values produced by estimate_shotclock never
exceed 24, but no lower bound holds (the decrement is unclamped, see the
counterexample).  The reset rules do hold for every non-initial row of a
possession: an offensive-rebound row (tag OFFENSIVE or OFFENSIVE-TEAM)
valued with the block flag down receives exactly 14, and a flagrant-class
foul row (codes 14, 9, 15, 8) receives exactly 24; the possession's first
row is always pinned to 24. -/
theorem C1_theorem :
    (∀ rows : List Row, ∀ sc ∈ estimate_shotclock rows, sc ≤ 24) ∧
    (∀ (psc pt : Int) (row : Row) (rest : List Row),
      row.EVENTMSGTYPE = 4 →
      (row.ACTION_DETAILS = "OFFENSIVE" ∨ row.ACTION_DETAILS = "OFFENSIVE-TEAM") →
      (estimate_shotclock_aux psc pt false (row :: rest)).head? = some 14) ∧
    (∀ (psc pt : Int) (bf : Bool) (row : Row) (rest : List Row),
      row.EVENTMSGTYPE = 6 →
      row.EVENTMSGACTIONTYPE ∈ [14, 9, 15, 8] →
      (estimate_shotclock_aux psc pt bf (row :: rest)).head? = some 24) := by
  refine ⟨?_, ?_, ?_⟩
  · intro rows sc hsc
    match rows with
    | [] => simp [estimate_shotclock] at hsc
    | row :: rest =>
      rw [estimate_shotclock] at hsc
      simp only [List.mem_cons] at hsc
      cases hsc with
      | inl h => omega
      | inr h => exact estimate_shotclock_aux_le rest 24 _ _ le_rfl sc h
  · intro psc pt row rest htype hdet
    rw [estimate_shotclock_aux]
    have hbf : (if row.EVENTMSGTYPE == 2 && row.PLAYER3_ID != 0 then true else false) = false := by
      rw [htype]; simp
    simp only [hbf]
    have hval : get_shotclock_value row
        (psc - max (pt - estimate_actual_time_remaining row) 0) false = 14 := by
      unfold get_shotclock_value
      have hc1 : (row.EVENTMSGTYPE == 4
          && (row.ACTION_DETAILS == "OFFENSIVE" || row.ACTION_DETAILS == "OFFENSIVE-TEAM")
          && !false) = true := by
        rw [htype]
        rcases hdet with h | h <;> rw [h] <;> decide
      simp only [hc1]
      simp
    rw [hval]
    rfl
  · intro psc pt bf row rest htype hact
    rw [estimate_shotclock_aux]
    have hbf : (if row.EVENTMSGTYPE == 2 && row.PLAYER3_ID != 0 then true else bf) = bf := by
      rw [htype]; simp
    simp only [hbf]
    have hval : get_shotclock_value row
        (psc - max (pt - estimate_actual_time_remaining row) 0) bf = 24 := by
      unfold get_shotclock_value
      simp only [List.mem_cons, List.not_mem_nil, or_false] at hact
      have hc1 : (row.EVENTMSGTYPE == 4
          && (row.ACTION_DETAILS == "OFFENSIVE" || row.ACTION_DETAILS == "OFFENSIVE-TEAM")
          && !bf) = false := by
        rw [htype]; simp
      have hc2 : (row.EVENTMSGTYPE == 6 && [1, 2, 6, 28].contains row.EVENTMSGACTIONTYPE
          && decide (psc - max (pt - estimate_actual_time_remaining row) 0 < 14)) = false := by
        rcases hact with h | h | h | h <;> rw [h] <;> simp
      have hc3 : (row.EVENTMSGTYPE == 6
          && [14, 9, 15, 8].contains row.EVENTMSGACTIONTYPE) = true := by
        rw [htype]
        rcases hact with h | h | h | h <;> rw [h] <;> decide
      simp only [hc1, hc2, hc3]
      simp
    rw [hval]
    rfl

/-- C1, witness: the amended theorem applied at a concrete offensive
rebound (clause two) and a concrete flagrant foul (clause three). -/
theorem C1_witness :
    (estimate_shotclock_aux 20 100 false
      [{ EVENTMSGTYPE := 4, ACTION_DETAILS := "OFFENSIVE" }]).head? = some 14 ∧
    (estimate_shotclock_aux 5 100 true
      [{ EVENTMSGTYPE := 6, EVENTMSGACTIONTYPE := 14 }]).head? = some 24 :=
  ⟨C1_theorem.2.1 20 100 { EVENTMSGTYPE := 4, ACTION_DETAILS := "OFFENSIVE" } [] rfl (Or.inl rfl),
   C1_theorem.2.2 5 100 true { EVENTMSGTYPE := 6, EVENTMSGACTIONTYPE := 14 } [] rfl (by decide)⟩

/- ------------------------------------------------------------------
Synthetic live inbounds, pbp_handler.py lines 219-241 and 1065-1147 (C2).
In the source the handler inserts the synthetic row at positional index
i + 0.5 and then sorts and resets the index, which is exactly an
insertion immediately after row i; each pass is therefore a flatMap. -/

/-- is_time_off_inbound, pbp_handler.py lines 219-241: the game clock is
turned off during the live inbound when the basket is scored with at most
60 s left in periods 1-3, or at most 120 s left in period 4 and later. -/
def is_time_off_inbound (row : Row) : Bool :=
  if decide (row.PERIOD < 4) && decide (row.REMAINING_TIME ≤ 60) then true
  else if decide (row.PERIOD ≥ 4) && decide (row.REMAINING_TIME ≤ 120) then true
  else false

/-- Selector of the first inbound pass, pbp_handler.py line 1076: made
field goals whose tag is exactly 2PT or 3PT (and-ones are excluded by the
exact comparison). -/
def is_made_fg (r : Row) : Bool :=
  r.EVENTMSGTYPE == 1 && (r.ACTION_DETAILS == "2PT" || r.ACTION_DETAILS == "3PT")

/-- Selector of the second inbound pass, pbp_handler.py line 1115: made
final free throws (action codes 10, 12, 15 tagged MADE). -/
def is_made_final_ft (r : Row) : Bool :=
  r.EVENTMSGTYPE == 3 && [10, 12, 15].contains r.EVENTMSGACTIONTYPE
    && r.ACTION_DETAILS == "MADE"

/-- Synthetic inbound row built from a made field goal, pbp_handler.py
lines 1085-1106: event type 20, action type time_off + 1 (2 when the clock
is off, 1 when it is on), attributed through the two-team inverter to the
non-scoring team.  (The source indexes the inverter dict with the scoring
team id, which is never NaN on a made shot; the embedding defaults a
missing id to 0.) -/
def mk_shot_inbound (inv : Int → Int) (r : Row) : Row :=
  { r with
    EVENTMSGTYPE := 20
    EVENTMSGACTIONTYPE := if is_time_off_inbound r then 2 else 1
    HOMEDESCRIPTION := ""
    NEUTRALDESCRIPTION := "LIVE INBOUND"
    VISITORDESCRIPTION := ""
    PERSON1TYPE := -1
    PLAYER1_ID := inv (r.PLAYER1_TEAM_ID.getD 0)
    PLAYER1_NAME := none
    PLAYER1_TEAM_ID := none
    PERSON2TYPE := -1
    PLAYER2_ID := 0
    PLAYER2_TEAM_ID := none
    ACTION_DETAILS := "" }

/-- Synthetic inbound row built from a made final free throw,
pbp_handler.py lines 1121-1142: identical to the shot inbound except that
EVENTMSGACTIONTYPE is the constant 2 (clock off), with no game-clock
test. -/
def mk_ft_inbound (inv : Int → Int) (r : Row) : Row :=
  { r with
    EVENTMSGTYPE := 20
    EVENTMSGACTIONTYPE := 2
    HOMEDESCRIPTION := ""
    NEUTRALDESCRIPTION := "LIVE INBOUND"
    VISITORDESCRIPTION := ""
    PERSON1TYPE := -1
    PLAYER1_ID := inv (r.PLAYER1_TEAM_ID.getD 0)
    PLAYER1_NAME := none
    PLAYER1_TEAM_ID := none
    PERSON2TYPE := -1
    PLAYER2_ID := 0
    PLAYER2_TEAM_ID := none
    ACTION_DETAILS := "" }

/-- First pass of _add_inbounds: insert an inbound after every made field
goal. -/
def insert_shot_inbounds (inv : Int → Int) (rows : List Row) : List Row :=
  rows.flatMap fun r => if is_made_fg r then [r, mk_shot_inbound inv r] else [r]

/-- Second pass of _add_inbounds: insert an inbound after every made final
free throw. -/
def insert_ft_inbounds (inv : Int → Int) (rows : List Row) : List Row :=
  rows.flatMap fun r => if is_made_final_ft r then [r, mk_ft_inbound inv r] else [r]

/-- _add_inbounds, pbp_handler.py lines 1065-1147: the made-shot pass runs
over the whole table first, then the made-final-free-throw pass runs over
the updated table. -/
def add_inbounds (inv : Int → Int) (rows : List Row) : List Row :=
  insert_ft_inbounds inv (insert_shot_inbounds inv rows)

/-- Two-team inverter used by concrete C2 inputs. -/
def c2_inv (t : Int) : Int := if t == 100 then 200 else 100

/-- A made final free throw (1 of 1) early in period 1: 500 s remain. -/
def c2_ft_row : Row :=
  { EVENTMSGTYPE := 3, EVENTMSGACTIONTYPE := 10, ACTION_DETAILS := "MADE",
    PERIOD := 1, REMAINING_TIME := 500, PLAYER1_TEAM_ID := some 100 }

/-- C2, counterexample.  The claim applies the game-clock rule to the
inbound inserted after a made final free throw; with 500 s left in period
1 the rule says the clock stays on (action type 1), but _add_inbounds
hard-codes action type 2 (clock off) for every free-throw inbound, so the
inserted row does not match the rule's prediction. -/
theorem C2_counterexample :
    ¬ ((add_inbounds c2_inv [c2_ft_row]).map (fun r => (r.EVENTMSGTYPE, r.EVENTMSGACTIONTYPE))
        = [(3, 10), (20, if is_time_off_inbound c2_ft_row then 2 else 1)]) := by
  decide

theorem made_fg_not_ft {r : Row} (h : is_made_fg r = true) : is_made_final_ft r = false := by
  rw [is_made_fg, Bool.and_eq_true, beq_iff_eq] at h
  rw [is_made_final_ft, h.1]
  rfl

/-- C2, amended.  After every made 2PT/3PT field goal and every made final
free throw, _add_inbounds inserts exactly one synthetic live-inbound row
(event type 20) immediately after it, attributed through the two-team
inverter to the non-scoring team; the two passes never interfere, so the
whole correction is one insertion per qualifying row.  The game-clock rule
(off when at most 60 s remain in periods 1-3 or at most 120 s remain in
period 4+) determines the clock state only for the field-goal inbounds
(action type 2 when off, 1 when on); the free-throw inbound is always
inserted clock-off (action type 2), with no game-clock test. -/
theorem C2_theorem (inv : Int → Int) (rows : List Row) :
    add_inbounds inv rows = rows.flatMap (fun r =>
      if is_made_fg r then [r, mk_shot_inbound inv r]
      else if is_made_final_ft r then [r, mk_ft_inbound inv r]
      else [r]) ∧
    (∀ r : Row, (mk_shot_inbound inv r).EVENTMSGTYPE = 20
      ∧ (mk_shot_inbound inv r).PLAYER1_ID = inv (r.PLAYER1_TEAM_ID.getD 0)
      ∧ (mk_shot_inbound inv r).EVENTMSGACTIONTYPE
          = (if is_time_off_inbound r then 2 else 1)) ∧
    (∀ r : Row, (mk_ft_inbound inv r).EVENTMSGTYPE = 20
      ∧ (mk_ft_inbound inv r).PLAYER1_ID = inv (r.PLAYER1_TEAM_ID.getD 0)
      ∧ (mk_ft_inbound inv r).EVENTMSGACTIONTYPE = 2) := by
  refine ⟨?_, fun r => ⟨rfl, rfl, rfl⟩, fun r => ⟨rfl, rfl, rfl⟩⟩
  induction rows with
  | nil => rfl
  | cons r rest ih =>
    rw [List.flatMap_cons]
    unfold add_inbounds insert_shot_inbounds at *
    rw [List.flatMap_cons]
    unfold insert_ft_inbounds at *
    rw [List.flatMap_append]
    rw [ih]
    by_cases hfg : is_made_fg r = true
    · have hft : is_made_final_ft r = false := made_fg_not_ft hfg
      have hsib : is_made_final_ft (mk_shot_inbound inv r) = false := by
        rw [is_made_final_ft, mk_shot_inbound]
        rfl
      simp [hfg, hft, hsib]
    · by_cases hft : is_made_final_ft r = true
      · simp [hfg, hft]
      · simp [hfg, hft]

/- ------------------------------------------------------------------
Rebound classification, pbp_handler.py lines 848-925 (C3). -/

/-- A row at which the backward scan of _rebound_type stops, pbp_handler.py
lines 885-909: a missed field goal (event type 2) or a free throw tagged
MISSED -- of any action code, final or not. -/
def miss_row (r : Row) : Bool :=
  r.EVENTMSGTYPE == 2 || (r.EVENTMSGTYPE == 3 && r.ACTION_DETAILS == "MISSED")

/-- The backward scan `for j in range(i-1, 0, -1)` of _rebound_type: the
argument is the first index examined; index 0 is never examined (the range
stops at 1).  Returns the stopping row. -/
def scan_for_miss (df : List Row) : Nat → Option Row
  | 0 => none
  | j + 1 =>
    match df[j + 1]? with
    | some r => if miss_row r then some r else scan_for_miss df j
    | none => scan_for_miss df j

/-- Rebounding team of a rebound row, pbp_handler.py lines 873-879: team
rebounds (no player name) store the team id in PLAYER1_ID, individual
rebounds in PLAYER1_TEAM_ID. -/
def rebounding_team (r : Row) : Option Int :=
  match r.PLAYER1_NAME with
  | none => some r.PLAYER1_ID
  | some _ => r.PLAYER1_TEAM_ID

/-- ACTION_DETAILS that _rebound_type assigns to the true rebound (event
type 4, action code 0) at index i: OFFENSIVE when the stopping row's
shooting team equals the rebounding team, DEFENSIVE otherwise, suffixed
"-TEAM" when the rebound has no player name.  When the scan finds no miss
the source appends nothing and the later column assignment fails on a
length mismatch; that failure is `none`. -/
def rebound_detail (df : List Row) (i : Nat) : Option String :=
  match df[i]? with
  | none => none
  | some r =>
    (scan_for_miss df (i - 1)).map fun m =>
      let tag := if float_eq m.PLAYER1_TEAM_ID (rebounding_team r) then "OFFENSIVE"
                 else "DEFENSIVE"
      if r.PLAYER1_NAME.isNone then tag ++ "-TEAM" else tag

/-- Stopping rows of the scan as the claim words it: a missed field goal or
a missed FINAL free throw (action codes 10, 12, 15). -/
def claim_miss_row (r : Row) : Bool :=
  r.EVENTMSGTYPE == 2
    || (r.EVENTMSGTYPE == 3 && [10, 12, 15].contains r.EVENTMSGACTIONTYPE
        && r.ACTION_DETAILS == "MISSED")

/-- The rebound rule exactly as the claim states it: scan every preceding
row, nearest first, for the last missed field goal or missed final free
throw and compare teams. -/
def claimed_rebound_detail (df : List Row) (i : Nat) : Option String :=
  match df[i]? with
  | none => none
  | some r =>
    ((df.take i).reverse.find? claim_miss_row).map fun m =>
      let tag := if float_eq m.PLAYER1_TEAM_ID (rebounding_team r) then "OFFENSIVE"
                 else "DEFENSIVE"
      if r.PLAYER1_NAME.isNone then tag ++ "-TEAM" else tag

/-- The rebound rule as amended: the scan stops at a missed free throw of
any action code (not only final ones) and never examines the table's first
row. -/
def amended_rebound_detail (df : List Row) (i : Nat) : Option String :=
  match df[i]? with
  | none => none
  | some r =>
    (((df.take i).drop 1).reverse.find? miss_row).map fun m =>
      let tag := if float_eq m.PLAYER1_TEAM_ID (rebounding_team r) then "OFFENSIVE"
                 else "DEFENSIVE"
      if r.PLAYER1_NAME.isNone then tag ++ "-TEAM" else tag

/-- Period start, missed FG by team 100, missed non-final FT by team 200,
the provider's placeholder rebound (action code 1, later tagged FAKE), and
a true rebound by a player of team 200. -/
def c3_df : List Row :=
  [ { EVENTMSGTYPE := 12 },
    { EVENTMSGTYPE := 2, PLAYER1_TEAM_ID := some 100, PLAYER1_NAME := some "A" },
    { EVENTMSGTYPE := 3, EVENTMSGACTIONTYPE := 11, ACTION_DETAILS := "MISSED",
      PLAYER1_TEAM_ID := some 200, PLAYER1_NAME := some "B" },
    { EVENTMSGTYPE := 4, EVENTMSGACTIONTYPE := 1 },
    { EVENTMSGTYPE := 4, EVENTMSGACTIONTYPE := 0, PLAYER1_TEAM_ID := some 200,
      PLAYER1_NAME := some "C" } ]

/-- C3, counterexample.  The claim's scan skips the non-final missed free
throw (code 11) and reaches the missed field goal by team 100, tagging the
team-200 rebound DEFENSIVE; the code's scan stops at the first MISSED free
throw of any code, compares team 200 with team 200, and tags it OFFENSIVE. -/
theorem C3_counterexample :
    rebound_detail c3_df 4 ≠ claimed_rebound_detail c3_df 4 := by
  decide

theorem scan_for_miss_eq (df : List Row) :
    ∀ s : Nat, scan_for_miss df s = ((df.take (s + 1)).drop 1).reverse.find? miss_row := by
  intro s
  induction s with
  | zero =>
    have hlen : (df.take 1).length ≤ 1 := by
      rw [List.length_take]
      omega
    rw [List.drop_eq_nil_of_le hlen]
    rfl
  | succ j ih =>
    rw [scan_for_miss]
    rw [List.take_succ]
    cases hget : df[j + 1]? with
    | none =>
      simp only [Option.toList_none, List.append_nil]
      exact ih
    | some r =>
      have hlen1 : 1 ≤ (df.take (j + 1)).length := by
        have hj : j + 1 < df.length := (List.getElem?_eq_some_iff.mp hget).1
        rw [List.length_take]
        omega
      show (if miss_row r then some r else scan_for_miss df j)
          = (((df.take (j + 1) ++ (some r).toList).drop 1).reverse.find? miss_row)
      rw [Option.toList_some]
      rw [List.drop_append_eq_append_drop]
      have h10 : 1 - (df.take (j + 1)).length = 0 := by omega
      rw [h10, List.drop_zero, List.reverse_append, List.reverse_singleton]
      rw [List.find?_append]
      by_cases hm : miss_row r = true
      · simp [List.find?_cons, hm]
      · rw [Bool.not_eq_true] at hm
        simp [List.find?_cons, hm, ih]

/-- C3, amended.  For every rebound index, the detail _rebound_type
computes equals the claim's backward-scan rule amended in two ways forced
by the code: the scan stops at the nearest missed field goal OR missed
free throw of any action code (final or not), and it never examines the
table's first row.  Tags (OFFENSIVE when the rebounding team equals the
shooter's team, DEFENSIVE otherwise) and the "-TEAM" suffix for rebounds
with no player actor are as the claim states. -/
theorem C3_theorem (df : List Row) (i : Nat) :
    rebound_detail df i = amended_rebound_detail df i := by
  unfold rebound_detail amended_rebound_detail
  cases hdr : df[i]? with
  | none => rfl
  | some r =>
    cases i with
    | zero => rfl
    | succ j =>
      simp only [Nat.add_sub_cancel]
      rw [scan_for_miss_eq df j]

/- ------------------------------------------------------------------
Possession-id assignment, pbp_handler.py lines 132-157 and 1449-1463 (C4).
In the source, squish_series keeps the indices where the per-period POSS
column changes value, np.arange numbers those switch points 1..k offset by
the running counter, and a global forward fill copies each switch's id down
to the rows below it; the counter continues from the last id of the period.
On a table in canonical order (each period one contiguous block) this is
run-length numbering of the POSS column, embedded below per period block. -/

/-- Run-length ids after the first row: `cur` is the possession owner of
the previous row, `k` its id; the id repeats while the owner repeats and
steps by one at each change (squish_series keeping change points plus the
forward fill). -/
def poss_ids_aux (cur : Int) (k : Nat) : List Int → List Nat
  | [] => []
  | t :: rest =>
    if t == cur then k :: poss_ids_aux cur k rest
    else (k + 1) :: poss_ids_aux t (k + 1) rest

/-- Possession ids of one period block given the running counter `cum`:
the first row always starts a possession (squish_series keeps the first
index), numbered cum + 1. -/
def poss_ids_of_period (cum : Nat) : List Int → List Nat
  | [] => []
  | t :: rest => (cum + 1) :: poss_ids_aux t (cum + 1) rest

/-- POSS_ID assignment over the whole game, pbp_handler.py lines 1449-1463:
fold over the period blocks, each period continuing the counter from the
last id assigned in the previous period (`cum_poss = poss_id_vec[-1]`). -/
def assign_poss_id (cum : Nat) : List (List Int) → List Nat
  | [] => []
  | block :: rest =>
    let ids := poss_ids_of_period cum block
    ids ++ assign_poss_id (ids.getLast?.getD cum) rest

/-- True when some adjacent pair of the list strictly increases. -/
def has_strict_rise (l : List Nat) : Bool :=
  (l.zip l.tail).any fun p => decide (p.1 < p.2)

/-- C4, counterexample.  A game whose single period is held by one team
throughout gets the constant POSS_ID column [1, 1]: POSS_ID never strictly
increases inside that period, against the claim that it strictly increases
at least once within every period. -/
theorem C4_counterexample :
    assign_poss_id 0 [[5, 5]] = [1, 1] ∧
    has_strict_rise (assign_poss_id 0 [[5, 5]]) = false := by
  decide

theorem poss_ids_aux_chain :
    ∀ (xs : List Int) (cur : Int) (k : Nat),
      List.Chain (· ≤ ·) k (poss_ids_aux cur k xs) := by
  intro xs
  induction xs with
  | nil => intro cur k; exact List.Chain.nil
  | cons t rest ih =>
    intro cur k
    rw [poss_ids_aux]
    by_cases ht : (t == cur) = true
    · rw [if_pos ht]
      exact List.Chain.cons le_rfl (ih cur k)
    · rw [if_neg ht]
      exact List.Chain.cons (Nat.le_succ k) (ih t (k + 1))

theorem poss_ids_aux_mem_ge :
    ∀ (xs : List Int) (cur : Int) (k : Nat), ∀ y ∈ poss_ids_aux cur k xs, k ≤ y := by
  intro xs
  induction xs with
  | nil => intro cur k y hy; simp [poss_ids_aux] at hy
  | cons t rest ih =>
    intro cur k y hy
    rw [poss_ids_aux] at hy
    by_cases ht : (t == cur) = true
    · rw [if_pos ht] at hy
      rcases List.mem_cons.mp hy with h | h
      · omega
      · exact ih cur k y h
    · rw [if_neg ht] at hy
      rcases List.mem_cons.mp hy with h | h
      · omega
      · have := ih t (k + 1) y h
        omega

theorem poss_ids_of_period_mem_ge (cum : Nat) (block : List Int) :
    ∀ y ∈ poss_ids_of_period cum block, cum + 1 ≤ y := by
  cases block with
  | nil => intro y hy; simp [poss_ids_of_period] at hy
  | cons t rest =>
    intro y hy
    rw [poss_ids_of_period] at hy
    rcases List.mem_cons.mp hy with h | h
    · omega
    · exact poss_ids_aux_mem_ge rest t (cum + 1) y h

theorem poss_ids_newcum_ge (cum : Nat) (block : List Int) :
    cum ≤ ((poss_ids_of_period cum block).getLast?.getD cum) := by
  cases hids : poss_ids_of_period cum block with
  | nil => simp
  | cons a l =>
    have hne : (a :: l) ≠ [] := by simp
    rw [List.getLast?_eq_getLast _ hne, Option.getD_some]
    have hmem : (a :: l).getLast hne ∈ a :: l := List.getLast_mem hne
    have hmem' : (a :: l).getLast hne ∈ poss_ids_of_period cum block := by
      rw [hids]
      exact hmem
    have := poss_ids_of_period_mem_ge cum block ((a :: l).getLast hne) hmem'
    omega

theorem assign_poss_id_mem_ge :
    ∀ (blocks : List (List Int)) (cum : Nat), ∀ y ∈ assign_poss_id cum blocks, cum + 1 ≤ y := by
  intro blocks
  induction blocks with
  | nil => intro cum y hy; simp [assign_poss_id] at hy
  | cons block rest ih =>
    intro cum y hy
    rw [assign_poss_id] at hy
    rcases List.mem_append.mp hy with h | h
    · exact poss_ids_of_period_mem_ge cum block y h
    · have hge := ih ((poss_ids_of_period cum block).getLast?.getD cum) y h
      have := poss_ids_newcum_ge cum block
      omega

theorem poss_ids_aux_rise :
    ∀ (xs : List Int) (cur : Int) (k : Nat),
      xs.any (fun t => t != cur) = true →
      has_strict_rise (k :: poss_ids_aux cur k xs) = true := by
  intro xs
  induction xs with
  | nil => intro cur k hany; simp at hany
  | cons t rest ih =>
    intro cur k hany
    rw [poss_ids_aux]
    by_cases ht : (t == cur) = true
    · rw [if_pos ht]
      have hrest : rest.any (fun t => t != cur) = true := by
        rw [List.any_cons] at hany
        have htne : (t != cur) = false := by
          rw [bne, ht]
          rfl
        rw [htne] at hany
        simpa using hany
      have := ih cur k hrest
      rw [has_strict_rise] at this ⊢
      rw [List.tail_cons, List.zip_cons_cons, List.any_cons]
      rw [List.tail_cons] at this
      rw [this]
      simp
    · rw [if_neg ht]
      rw [has_strict_rise, List.tail_cons, List.zip_cons_cons, List.any_cons]
      have : decide (k < k + 1) = true := by simp
      rw [this]
      simp

/-- C4, amended.  Over a table in canonical order (period blocks in game
order), POSS_ID as assigned by squish_series run-length numbering is
non-decreasing along the whole game, for every running counter; and within
every period whose POSS column is not constant (some row's owner differs
from the period's first owner), POSS_ID strictly increases at least once.
A period held by one team throughout keeps one constant id (see the
counterexample), so the per-period strict increase needs the non-constancy
hypothesis. -/
theorem C4_theorem :
    (∀ (cum : Nat) (blocks : List (List Int)),
      (assign_poss_id cum blocks).Chain' (· ≤ ·)) ∧
    (∀ (cum : Nat) (t0 : Int) (rest : List Int),
      rest.any (fun t => t != t0) = true →
      has_strict_rise (poss_ids_of_period cum (t0 :: rest)) = true) := by
  constructor
  · intro cum blocks
    induction blocks generalizing cum with
    | nil => exact List.chain'_nil
    | cons block rest ih =>
      rw [assign_poss_id]
      rw [List.chain'_append]
      refine ⟨?_, ih _, ?_⟩
      · cases block with
        | nil => exact List.chain'_nil
        | cons t brest => exact poss_ids_aux_chain brest t (cum + 1)
      · intro x hx y hy
        have hx' : (poss_ids_of_period cum block).getLast? = some x := hx
        have hnew : ((poss_ids_of_period cum block).getLast?.getD cum) = x := by
          rw [hx']
          rfl
        have hymem := List.mem_of_mem_head? hy
        have := assign_poss_id_mem_ge rest ((poss_ids_of_period cum block).getLast?.getD cum) y hymem
        omega
  · intro cum t0 rest hany
    rw [poss_ids_of_period]
    exact poss_ids_aux_rise rest t0 (cum + 1) hany

/-- C4, witness: the amended theorem's per-period clause applied to a
period whose owner changes once. -/
theorem C4_witness : has_strict_rise (poss_ids_of_period 0 [5, 6]) = true :=
  C4_theorem.2 0 5 [6] (by decide)

/- ------------------------------------------------------------------
Opportunity numbers, pbp_handler.py lines 1486-1516 (C5).
_assign_chance_number slices the possession at each individual offensive
rebound (EVENTMSGTYPE 4, ACTION_DETAILS exactly "OFFENSIVE") and assigns
the ranges [start..j1], [j1..j2], .., [jk..last] the numbers 1, 2, .. in
order; successive ranges share their boundary index and the later
assignment wins, so each offensive-rebound row takes the new number.  Net
effect: a row's OPPORTUNITY_NUM is 1 plus the count of individual
offensive rebounds at or before it in the possession, which the fold below
computes row by row. -/

/-- An individual offensive rebound, the only boundary
_assign_chance_number splits at (OFFENSIVE-TEAM rows do not count). -/
def is_ind_oreb (r : Row) : Bool :=
  r.EVENTMSGTYPE == 4 && r.ACTION_DETAILS == "OFFENSIVE"

/-- Running opportunity counter: bumped at an individual offensive rebound
before that row is numbered. -/
def opportunity_nums_aux (c : Nat) : List Row → List Nat
  | [] => []
  | r :: rest =>
    (if is_ind_oreb r then c + 1 else c)
      :: opportunity_nums_aux (if is_ind_oreb r then c + 1 else c) rest

/-- OPPORTUNITY_NUM of each row of one possession, counter starting at 1. -/
def opportunity_nums (rows : List Row) : List Nat :=
  opportunity_nums_aux 1 rows

/-- A possession: live inbound, missed shot, team offensive rebound
(OFFENSIVE-TEAM), made putback. -/
def c5_team_oreb : Row :=
  { EVENTMSGTYPE := 4, ACTION_DETAILS := "OFFENSIVE-TEAM", PLAYER1_ID := 100 }

/-- Rows of the C5 counterexample possession. -/
def c5_rows : List Row :=
  [ { EVENTMSGTYPE := 20 },
    { EVENTMSGTYPE := 2, ACTION_DETAILS := "2PT", PLAYER1_TEAM_ID := some 100 },
    c5_team_oreb,
    { EVENTMSGTYPE := 1, ACTION_DETAILS := "2PT", PLAYER1_TEAM_ID := some 100 } ]

/-- C5, counterexample.  Row 2 is an offensive rebound (tag
OFFENSIVE-TEAM) inside the possession, so the claim requires
OPPORTUNITY_NUM to step to 2 there; _assign_chance_number only splits at
ACTION_DETAILS exactly "OFFENSIVE", so the whole possession keeps
OPPORTUNITY_NUM 1. -/
theorem C5_counterexample :
    (c5_rows.map fun r => (r.EVENTMSGTYPE, r.ACTION_DETAILS))
        = [(20, ""), (2, "2PT"), (4, "OFFENSIVE-TEAM"), (1, "2PT")] ∧
    opportunity_nums c5_rows = [1, 1, 1, 1] ∧
    ¬ (opportunity_nums c5_rows)[2]? = some 2 := by
  refine ⟨rfl, rfl, ?_⟩
  decide

theorem opportunity_nums_aux_step :
    ∀ (rows : List Row) (c i : Nat) (ri : Row),
      rows[i + 1]? = some ri →
      (opportunity_nums_aux c rows)[i + 1]?
        = (opportunity_nums_aux c rows)[i]?.map
            (fun x => if is_ind_oreb ri then x + 1 else x) := by
  intro rows
  induction rows with
  | nil => intro c i ri h; simp at h
  | cons r rest ih =>
    intro c i ri h
    cases i with
    | zero =>
      cases rest with
      | nil => simp at h
      | cons r2 rest' =>
        have hr2 : r2 = ri := by simpa using h
        subst hr2
        simp [opportunity_nums_aux]
    | succ j =>
      have h' : rest[j + 1]? = some ri := by simpa using h
      have := ih (if is_ind_oreb r then c + 1 else c) j ri h'
      simpa [opportunity_nums_aux] using this

/-- C5, amended.  OPPORTUNITY_NUM is 1 at the possession's first row
provided that row is not itself an individual offensive rebound, and from
each row to the next it increases by exactly 1 when the next row is an
individual offensive rebound (ACTION_DETAILS exactly "OFFENSIVE") and is
unchanged otherwise -- in particular a team offensive rebound
(OFFENSIVE-TEAM) is not an opportunity boundary (see the counterexample).
Each possession is numbered independently, so the next possession restarts
at 1. -/
theorem C5_theorem :
    (∀ (r : Row) (rest : List Row), is_ind_oreb r = false →
      (opportunity_nums (r :: rest)).head? = some 1) ∧
    (∀ (rows : List Row) (i : Nat) (ri : Row), rows[i + 1]? = some ri →
      (opportunity_nums rows)[i + 1]?
        = (opportunity_nums rows)[i]?.map
            (fun c => if is_ind_oreb ri then c + 1 else c)) := by
  constructor
  · intro r rest h
    simp [opportunity_nums, opportunity_nums_aux, h]
  · intro rows i ri h
    exact opportunity_nums_aux_step rows 1 i ri h

/-- C5, witness: the amended theorem applied to a possession opening on a
live inbound and to the team-rebound row of the counterexample
possession. -/
theorem C5_witness :
    (opportunity_nums [{ EVENTMSGTYPE := 20 }]).head? = some 1 ∧
    (opportunity_nums c5_rows)[2]?
      = (opportunity_nums c5_rows)[1]?.map
          (fun c => if is_ind_oreb c5_team_oreb then c + 1 else c) :=
  ⟨C5_theorem.1 { EVENTMSGTYPE := 20 } [] (by decide),
   C5_theorem.2 c5_rows 1 c5_team_oreb (by decide)⟩

/- ------------------------------------------------------------------
Putback-frenzy reordering, pbp_handler.py lines 176-186 and 509-621
(C6, C7, C8).  A cluster is the sub-dataframe of one elapsed-time bucket:
a list of (positional index, row) pairs.  Python's list.sort() on the
indices is embedded as insertionSort; "return df" is Except.ok of the
input; every raise is Except.error. -/

/-- zip_lists' alternation, pbp_handler.py lines 176-186: l1 fills the
even slots, l2 the odd ones. -/
def interleave : List Row → List Row → List Row
  | [], ys => ys
  | x :: xs, [] => x :: xs
  | x :: xs, y :: ys => x :: y :: interleave xs ys

/-- zip_lists, pbp_handler.py lines 176-186: Python's slice assignments
`alternating_list[::2] = l1; alternating_list[1::2] = l2` require
len(l1) - len(l2) to be 0 or 1 and raise ValueError otherwise (`none`). -/
def zip_lists (l1 l2 : List Row) : Option (List Row) :=
  if l1.length == l2.length || l1.length == l2.length + 1 then
    some (interleave l1 l2)
  else none

/-- Made baskets of a cluster (EVENTMSGTYPE 1), pbp_handler.py 536-537. -/
def cluster_scores (df : List (Nat × Row)) : List Row :=
  (df.filter fun p => p.2.EVENTMSGTYPE == 1).map Prod.snd

/-- Missed shots of a cluster (EVENTMSGTYPE 2), pbp_handler.py 539-540. -/
def cluster_shots (df : List (Nat × Row)) : List Row :=
  (df.filter fun p => p.2.EVENTMSGTYPE == 2).map Prod.snd

/-- Offensive rebounds of a cluster, pbp_handler.py 542-543. -/
def cluster_orebs (df : List (Nat × Row)) : List Row :=
  (df.filter fun p => p.2.EVENTMSGTYPE == 4 && p.2.ACTION_DETAILS == "OFFENSIVE").map Prod.snd

/-- Defensive rebounds of a cluster, pbp_handler.py 545-546. -/
def cluster_drebs (df : List (Nat × Row)) : List Row :=
  (df.filter fun p => p.2.EVENTMSGTYPE == 4 && p.2.ACTION_DETAILS == "DEFENSIVE").map Prod.snd

/-- Index-contiguity check, pbp_handler.py lines 516-523: the sorted
positional indices must be exactly the consecutive range from their
minimum. -/
def contiguous_indices (df : List (Nat × Row)) : Bool :=
  let sorted := List.insertionSort (· ≤ ·) (df.map Prod.fst)
  sorted == List.range' (sorted.headD 0) sorted.length

/-- Final index assignment, pbp_handler.py lines 618-619: the reordered
rows take the sorted indices; pandas raises when the counts differ (which
happens when the cluster held rows outside the four recognized kinds). -/
def reindex (idxs : List Nat) (out : List Row) : Except String (List (Nat × Row)) :=
  if idxs.length == out.length then Except.ok (idxs.zip out)
  else Except.error "index length mismatch"

/-- order_putback_frenzy, pbp_handler.py lines 509-621.  Non-contiguous
clusters are returned untouched; clusters with no rebounds, or with more
than one made basket, are returned untouched; more than one defensive
rebound raises; one lone missed shot with one offensive rebound and
nothing else is returned in index order; otherwise the single make and/or
single defensive rebound anchor the rebuilt order exactly as in the
source's four branches, and the rebuilt rows take the sorted indices. -/
def order_putback_frenzy (df : List (Nat × Row)) : Except String (List (Nat × Row)) :=
  if !contiguous_indices df then Except.ok df
  else
    let idxs := List.insertionSort (· ≤ ·) (df.map Prod.fst)
    let score_dics := cluster_scores df
    let shot_dics := cluster_shots df
    let oreb_dics := cluster_orebs df
    let dreb_dics := cluster_drebs df
    if dreb_dics.length + oreb_dics.length == 0 then Except.ok df
    else if decide (score_dics.length > 1) then Except.ok df
    else if decide (dreb_dics.length > 1) then
      Except.error "Too many simultaneous defensive rebounds"
    else if score_dics.length + dreb_dics.length == 0
        && oreb_dics.length == 1 && shot_dics.length == 1 then
      Except.ok (List.insertionSort (fun a b => a.1 ≤ b.1) df)
    else
      match score_dics, dreb_dics with
      | [s], [d] =>
        if float_eq s.PLAYER1_TEAM_ID d.PLAYER1_TEAM_ID then
          match zip_lists shot_dics oreb_dics with
          | none => Except.error "zip_lists length mismatch"
          | some z => reindex idxs ((s :: d :: z).reverse)
        else Except.error "Simultaneous bucket and dreb by opposing teams"
      | [], [] =>
        match (if decide (oreb_dics.length ≥ shot_dics.length) then
                 zip_lists oreb_dics shot_dics
               else zip_lists shot_dics oreb_dics) with
        | none => Except.error "zip_lists length mismatch"
        | some z => reindex idxs z
      | [], [d] =>
        match zip_lists shot_dics oreb_dics with
        | none => Except.error "zip_lists length mismatch"
        | some z =>
          let out := (d :: z).reverse
          let out2 :=
            match shot_dics with
            | [sh] => if float_eq sh.PLAYER1_TEAM_ID d.PLAYER1_TEAM_ID then out.reverse else out
            | _ => out
          reindex idxs out2
      | [s], [] =>
        match zip_lists oreb_dics shot_dics with
        | none => Except.error "zip_lists length mismatch"
        | some z => reindex idxs ((s :: z).reverse)
      | _, _ => Except.error "unreachable: guards bound the counts"

/-- Missed shot by team tA (C6 cluster). -/
def c6_miss (tA : Int) : Row :=
  { EVENTMSGTYPE := 2, ACTION_DETAILS := "2PT", PLAYER1_TEAM_ID := some tA,
    PLAYER1_NAME := some "A1" }

/-- Offensive rebound by team tA (C6 cluster). -/
def c6_oreb (tA : Int) : Row :=
  { EVENTMSGTYPE := 4, ACTION_DETAILS := "OFFENSIVE", PLAYER1_TEAM_ID := some tA,
    PLAYER1_NAME := some "A2" }

/-- Made putback by team tA (C6 cluster). -/
def c6_make (tA : Int) : Row :=
  { EVENTMSGTYPE := 1, ACTION_DETAILS := "2PT", PLAYER1_TEAM_ID := some tA,
    PLAYER1_NAME := some "A2" }

/-- C6.  For a same-timestamp, index-contiguous cluster of a missed shot,
an offensive rebound and a made shot, all by one team tA (handed to the
pass with the make out of order in the middle), order_putback_frenzy
rebuilds the canonical order miss, then rebound, then make: the source's
no-defensive-rebound branch puts the make last and alternates the rebound
between the miss and the putback, whatever the team id. -/
theorem C6_theorem (tA : Int) :
    order_putback_frenzy [(7, c6_miss tA), (8, c6_make tA), (9, c6_oreb tA)]
      = Except.ok [(7, c6_miss tA), (8, c6_oreb tA), (9, c6_make tA)] := by
  rfl

/-- C7.  Scenario D: an index-contiguous, same-timestamp cluster of one
made shot and one defensive rebound whose teams differ (pandas float
comparison) makes order_putback_frenzy raise the
simultaneous-make/defensive-rebound anomaly instead of reordering. -/
theorem C7_theorem (i : Nat) (s d : Row)
    (hs : s.EVENTMSGTYPE = 1) (hd : d.EVENTMSGTYPE = 4)
    (hdet : d.ACTION_DETAILS = "DEFENSIVE")
    (hne : float_eq s.PLAYER1_TEAM_ID d.PLAYER1_TEAM_ID = false) :
    order_putback_frenzy [(i, s), (i + 1, d)]
      = Except.error "Simultaneous bucket and dreb by opposing teams" := by
  have hmap : ([(i, s), (i + 1, d)].map Prod.fst) = [i, i + 1] := rfl
  have hsort : List.insertionSort (· ≤ ·) ([(i, s), (i + 1, d)].map Prod.fst) = [i, i + 1] := by
    rw [hmap]
    apply List.Sorted.insertionSort_eq
    simp [List.sorted_cons]
  have hcont : contiguous_indices [(i, s), (i + 1, d)] = true := by
    simp only [contiguous_indices, hsort]
    simp [List.range']
  have hscores : cluster_scores [(i, s), (i + 1, d)] = [s] := by
    simp [cluster_scores, List.filter, hs, hd]
  have hshots : cluster_shots [(i, s), (i + 1, d)] = [] := by
    simp [cluster_shots, List.filter, hs, hd]
  have horebs : cluster_orebs [(i, s), (i + 1, d)] = [] := by
    simp [cluster_orebs, List.filter, hs, hd, hdet]
  have hdrebs : cluster_drebs [(i, s), (i + 1, d)] = [d] := by
    simp [cluster_drebs, List.filter, hs, hd, hdet]
  simp only [order_putback_frenzy, hcont, hscores, hshots, horebs, hdrebs, hne]
  simp

/-- Made shot by team 100 used in the C7 witness cluster. -/
def c7_s : Row :=
  { EVENTMSGTYPE := 1, ACTION_DETAILS := "2PT", PLAYER1_TEAM_ID := some 100,
    PLAYER1_NAME := some "A1" }

/-- Defensive rebound by team 200 used in the C7 witness cluster. -/
def c7_d : Row :=
  { EVENTMSGTYPE := 4, ACTION_DETAILS := "DEFENSIVE", PLAYER1_TEAM_ID := some 200,
    PLAYER1_NAME := some "B1" }

/-- C7, witness: the anomaly theorem applied at the concrete two-row
cluster make-by-100 then defensive-rebound-by-200. -/
theorem C7_witness :
    order_putback_frenzy [(3, c7_s), (4, c7_d)]
      = Except.error "Simultaneous bucket and dreb by opposing teams" :=
  C7_theorem 3 c7_s c7_d rfl rfl rfl (by decide)

/-- Cluster with two made baskets and one offensive rebound, all by team
100, at contiguous indices 3, 4, 5. -/
def c8_df : List (Nat × Row) :=
  [ (3, { EVENTMSGTYPE := 1, ACTION_DETAILS := "2PT", PLAYER1_TEAM_ID := some 100,
          PLAYER1_NAME := some "A1" }),
    (4, { EVENTMSGTYPE := 1, ACTION_DETAILS := "2PT", PLAYER1_TEAM_ID := some 100,
          PLAYER1_NAME := some "A2" }),
    (5, { EVENTMSGTYPE := 4, ACTION_DETAILS := "OFFENSIVE", PLAYER1_TEAM_ID := some 100,
          PLAYER1_NAME := some "A1" }) ]

/-- C8, counterexample.  The claim says a cluster holding a rebound and
more than one made basket fails with an explicit fatal error rather than
being returned; order_putback_frenzy instead hits `if len(score_dics) > 1:
return df` and hands the cluster back unchanged, with no error. -/
theorem C8_counterexample :
    order_putback_frenzy c8_df = Except.ok c8_df := by
  rfl

/-- C8, amended.  Of the two anomalies the claim groups together, only the
defensive-rebound one is a fatal error: an index-contiguous cluster with
at most one made basket and two or more defensive rebounds raises "Too
many simultaneous defensive rebounds", while a cluster with at least one
rebound and more than one made basket is returned unchanged (no error), as
the counterexample shows. -/
theorem C8_theorem (df : List (Nat × Row)) (hc : contiguous_indices df = true) :
    ((cluster_scores df).length ≤ 1 → 2 ≤ (cluster_drebs df).length →
      order_putback_frenzy df = Except.error "Too many simultaneous defensive rebounds") ∧
    (2 ≤ (cluster_scores df).length →
      1 ≤ (cluster_drebs df).length + (cluster_orebs df).length →
      order_putback_frenzy df = Except.ok df) := by
  constructor
  · intro hs hd
    have h1 : ((cluster_drebs df).length + (cluster_orebs df).length == 0) = false := by
      rw [Bool.eq_false_iff]
      intro h
      rw [beq_iff_eq] at h
      omega
    have h2 : decide ((cluster_scores df).length > 1) = false := by
      rw [decide_eq_false_iff_not]
      omega
    have h3 : decide ((cluster_drebs df).length > 1) = true := by
      rw [decide_eq_true_eq]
      omega
    simp only [order_putback_frenzy, hc, h1, h2, h3]
    simp
  · intro hs hsum
    have h1 : ((cluster_drebs df).length + (cluster_orebs df).length == 0) = false := by
      rw [Bool.eq_false_iff]
      intro h
      rw [beq_iff_eq] at h
      omega
    have h2 : decide ((cluster_scores df).length > 1) = true := by
      rw [decide_eq_true_eq]
      omega
    simp only [order_putback_frenzy, hc, h1, h2]
    simp

/-- Cluster of two simultaneous defensive rebounds (by teams 100 and 200)
at contiguous indices 3, 4. -/
def c8_err_df : List (Nat × Row) :=
  [ (3, { EVENTMSGTYPE := 4, ACTION_DETAILS := "DEFENSIVE", PLAYER1_TEAM_ID := some 100,
          PLAYER1_NAME := some "B1" }),
    (4, { EVENTMSGTYPE := 4, ACTION_DETAILS := "DEFENSIVE", PLAYER1_TEAM_ID := some 200,
          PLAYER1_NAME := some "B2" }) ]

/-- C8, witness: the amended theorem's fatal clause applied at the
concrete two-defensive-rebound cluster. -/
theorem C8_witness :
    order_putback_frenzy c8_err_df
      = Except.error "Too many simultaneous defensive rebounds" :=
  (C8_theorem c8_err_df (by decide)).1 (by decide) (by decide)

/- ------------------------------------------------------------------
Verification pass, pbp_handler.py lines 160-173 and 1551-1592 (C9). -/

/-- np.sort(np.unique(...)) on a column: the distinct values in ascending
order. -/
def np_unique (l : List Int) : List Int :=
  List.insertionSort (· ≤ ·) l.dedup

/-- compare_series, pbp_handler.py lines 160-173, on two aligned columns:
true when no position differs under pandas `!=` (a NaN differs from
everything). -/
def series_match (ps : List (Option Int × Option Int)) : Bool :=
  ps.all fun p => !pandas_ne p.1 p.2

/-- _verify_parsing, pbp_handler.py lines 1551-1592: raise when the sorted
unique EVENTNUM sets differ (a length mismatch also raises, through
numpy), then compare actor and possession columns on four row filters --
field goals (types 1 and 2), individual offensive rebounds, team offensive
rebounds (actor id in PLAYER1_ID), and turnovers (type 5).  Free throws
(type 3) are in no filter.  Each raise is an Except.error naming the
failed check. -/
def verify_parsing (raw_eventnums : List Int) (df : List Row) : Except String Unit :=
  if !(np_unique raw_eventnums == np_unique (df.map Row.EVENTNUM)) then
    Except.error "Lost events"
  else if !(series_match ((df.filter fun r => r.EVENTMSGTYPE == 1 || r.EVENTMSGTYPE == 2).map
      fun r => (r.PLAYER1_TEAM_ID, r.POSS))) then
    Except.error "shot actor team differs from POSS"
  else if !(series_match ((df.filter fun r =>
        r.EVENTMSGTYPE == 4 && r.ACTION_DETAILS == "OFFENSIVE").map
      fun r => (r.PLAYER1_TEAM_ID, r.POSS))) then
    Except.error "individual offensive rebound actor differs from POSS"
  else if !(series_match ((df.filter fun r =>
        r.EVENTMSGTYPE == 4 && r.ACTION_DETAILS == "OFFENSIVE-TEAM").map
      fun r => (some r.PLAYER1_ID, r.POSS))) then
    Except.error "team offensive rebound actor differs from POSS"
  else if !(series_match ((df.filter fun r => r.EVENTMSGTYPE == 5).map
      fun r => (r.PLAYER1_TEAM_ID, r.POSS))) then
    Except.error "turnover actor team differs from POSS"
  else Except.ok ()

/-- A made free throw whose shooter's team (100) differs from the
possession owner (200); its event number matches the raw log. -/
def c9_ft_row : Row :=
  { EVENTNUM := 7, EVENTMSGTYPE := 3, EVENTMSGACTIONTYPE := 10, ACTION_DETAILS := "MADE",
    PLAYER1_TEAM_ID := some 100, PLAYER1_NAME := some "A1", POSS := some 200 }

/-- C9, counterexample.  The claim's "if and only if" requires a raise on
a table whose free-throw row has an actor team different from the
possessing team; _verify_parsing only filters event types 1, 2, 4 and 5,
so the mismatched type-3 row passes and no error is raised. -/
theorem C9_counterexample :
    c9_ft_row.EVENTMSGTYPE = 3 ∧
    pandas_ne c9_ft_row.PLAYER1_TEAM_ID c9_ft_row.POSS = true ∧
    verify_parsing [7] [c9_ft_row] = Except.ok () := by
  refine ⟨rfl, rfl, ?_⟩
  rfl

theorem series_match_filter (df : List Row) (p : Row → Bool)
    (f : Row → Option Int × Option Int) :
    series_match ((df.filter p).map f) = true ↔
      ∀ r ∈ df, p r = true → pandas_ne (f r).1 (f r).2 = false := by
  rw [series_match, List.all_eq_true]
  constructor
  · intro h r hr hp
    have hmem : f r ∈ (df.filter p).map f :=
      List.mem_map_of_mem f (List.mem_filter.mpr ⟨hr, hp⟩)
    have := h _ hmem
    simpa using this
  · intro h q hq
    rw [List.mem_map] at hq
    obtain ⟨r, hrf, rfl⟩ := hq
    rw [List.mem_filter] at hrf
    have := h r hrf.1 hrf.2
    simpa using this

/-- C9, amended.  _verify_parsing succeeds exactly when the sorted unique
event numbers of the raw and processed tables agree and every field-goal
row (types 1 and 2), every individual offensive rebound, every team
offensive rebound (whose actor id sits in PLAYER1_ID) and every turnover
row (type 5) has its actor equal to the possessing team under pandas
comparison; it raises exactly when one of those five checks fails.  Free
throws are never checked (see the counterexample), and mismatched
offensive rebounds or turnovers do raise, which the claim's "if and only
if" over shot/FT rows and lost events does not allow. -/
theorem C9_theorem (raw_eventnums : List Int) (df : List Row) :
    verify_parsing raw_eventnums df = Except.ok () ↔
      (np_unique raw_eventnums = np_unique (df.map Row.EVENTNUM) ∧
       (∀ r ∈ df, (r.EVENTMSGTYPE == 1 || r.EVENTMSGTYPE == 2) = true →
          pandas_ne r.PLAYER1_TEAM_ID r.POSS = false) ∧
       (∀ r ∈ df, (r.EVENTMSGTYPE == 4 && r.ACTION_DETAILS == "OFFENSIVE") = true →
          pandas_ne r.PLAYER1_TEAM_ID r.POSS = false) ∧
       (∀ r ∈ df, (r.EVENTMSGTYPE == 4 && r.ACTION_DETAILS == "OFFENSIVE-TEAM") = true →
          pandas_ne (some r.PLAYER1_ID) r.POSS = false) ∧
       (∀ r ∈ df, (r.EVENTMSGTYPE == 5) = true →
          pandas_ne r.PLAYER1_TEAM_ID r.POSS = false)) := by
  rw [verify_parsing]
  split_ifs with h1 h2 h3 h4 h5
  · simp only [reduceCtorEq, false_iff, not_and]
    intro g1
    exfalso
    simp only [Bool.not_eq_true'] at h1
    rw [beq_eq_false_iff_ne] at h1
    exact h1 g1
  · simp only [reduceCtorEq, false_iff, not_and]
    intro g1 g2
    exfalso
    simp only [Bool.not_eq_true'] at h2
    rw [Bool.eq_false_iff] at h2
    exact h2 ((series_match_filter df _ _).mpr g2)
  · simp only [reduceCtorEq, false_iff, not_and]
    intro g1 g2 g3
    exfalso
    simp only [Bool.not_eq_true'] at h3
    rw [Bool.eq_false_iff] at h3
    exact h3 ((series_match_filter df _ _).mpr g3)
  · simp only [reduceCtorEq, false_iff, not_and]
    intro g1 g2 g3 g4
    exfalso
    simp only [Bool.not_eq_true'] at h4
    rw [Bool.eq_false_iff] at h4
    exact h4 ((series_match_filter df _ _).mpr g4)
  · simp only [reduceCtorEq, false_iff, not_and]
    intro g1 g2 g3 g4 g5
    exfalso
    simp only [Bool.not_eq_true'] at h5
    rw [Bool.eq_false_iff] at h5
    exact h5 ((series_match_filter df _ _).mpr g5)
  · simp only [true_iff]
    refine ⟨by simpa using h1, ?_, ?_, ?_, ?_⟩
    · exact (series_match_filter df (fun r => r.EVENTMSGTYPE == 1 || r.EVENTMSGTYPE == 2)
        (fun r => (r.PLAYER1_TEAM_ID, r.POSS))).mp (by simpa using h2)
    · exact (series_match_filter df
        (fun r => r.EVENTMSGTYPE == 4 && r.ACTION_DETAILS == "OFFENSIVE")
        (fun r => (r.PLAYER1_TEAM_ID, r.POSS))).mp (by simpa using h3)
    · exact (series_match_filter df
        (fun r => r.EVENTMSGTYPE == 4 && r.ACTION_DETAILS == "OFFENSIVE-TEAM")
        (fun r => (some r.PLAYER1_ID, r.POSS))).mp (by simpa using h4)
    · exact (series_match_filter df (fun r => r.EVENTMSGTYPE == 5)
        (fun r => (r.PLAYER1_TEAM_ID, r.POSS))).mp (by simpa using h5)
